import Mathlib

/-!
# Verification of the `starlite-saqlalchemy` SQLAlchemy repository

A shallow embedding of `src/starlite_saqlalchemy/repository/sqlalchemy.py`:
the filter value objects, the select-statement construction performed by the
private filter machinery, the exception-translation boundary
(`wrap_sqlalchemy_exception`) and the repository operations, executed against
an explicit unit-of-work state (a table of rows, the set of identifiers
attached to the session, the pending flush queue and the dialect capability
flags).

Modelling conventions:
* a column value is `Val` (integers double for datetimes and UUID primary
  keys, strings for slugs); `Option Val` stands for a nullable Python value,
  and a SQL comparison against `NULL` selects nothing;
* an entity (ORM row) is its primary key plus an association list of its
  remaining columns, as produced by `to_dict()`;
* a `Select` statement is the data the repository code ever puts into one:
  the accumulated WHERE predicates plus LIMIT/OFFSET;
* executing a statement runs it over the flushed table: WHERE filters rows
  in table order, OFFSET drops, LIMIT takes, a windowed
  `count(id) OVER ()` column carries the pre-pagination row count;
* the session autoflushes before executing a statement, loaded rows become
  attached to the session, `expunge` detaches them;
* `uuid4` primary-key generation is modelled by the strictly increasing
  `fresh` counter of the state (the generated key of `get_or_create`), and
  the 4-character random suffix of `get_available_slug` is passed in as the
  sampled string, constrained in the theorems exactly as
  `random.choices(ascii_lowercase + digits, k=4)` constrains it.
-/

/-- A column value: `int` covers integer, datetime and UUID columns,
`str` covers text columns such as `slug`. -/
inductive Val : Type
| int (n : Int)
| str (s : String)
deriving DecidableEq

/-- Strict SQL `<` on two non-NULL values (same-typed comparisons only,
which is all the typed columns ever produce). -/
def Val.ltb : Val → Val → Bool
| .int a, .int b => a < b
| .str a, .str b => a < b
| _, _ => false

/-- An ORM entity: the `id` primary-key column plus the remaining columns
keyed by attribute name, the mapping `to_dict()` yields. -/
structure Entity : Type where
  id : Int
  attrs : List (String × Val)
deriving DecidableEq

/-- `getattr(entity, field_name)` for mapped columns: the primary key is the
`id` attribute, every other column is looked up in the mapping; `none` is a
column that is absent/NULL. -/
def Entity.getattr (e : Entity) (f : String) : Option Val :=
  if f = "id" then some (.int e.id) else e.attrs.lookup f

/-- A WHERE predicate as the repository's private methods build them:
`lt`/`gt` from `_filter_on_datetime_field` (the compared value is optional
because the source can compare against a Python `None`, i.e. SQL NULL),
`inSet` from `_filter_in_collection`, `eqv` from `_filter_select_by_kwargs`
and `filter_by`. -/
inductive WherePred : Type
| lt (field : String) (v : Option Val)
| gt (field : String) (v : Option Val)
| inSet (field : String) (vs : List Val)
| eqv (field : String) (v : Val)
deriving DecidableEq

/-- SQL truth of one predicate at one row; any comparison with NULL (a
missing column or a `none` bound) selects nothing. -/
def WherePred.holds (p : WherePred) (e : Entity) : Bool :=
  match p with
  | .lt f v =>
    match e.getattr f, v with
    | some a, some b => a.ltb b
    | _, _ => false
  | .gt f v =>
    match e.getattr f, v with
    | some a, some b => b.ltb a
    | _, _ => false
  | .inSet f vs =>
    match e.getattr f with
    | some a => vs.any (fun w => w = a)
    | none => false
  | .eqv f v =>
    match e.getattr f with
    | some a => a = v
    | none => false

/-- The part of a SQLAlchemy `Select` the repository code constructs: the
conjunction of WHERE clauses, and LIMIT/OFFSET (absent on the base select
`select(self.model_type)`). -/
structure SelectStmt : Type where
  wheres : List WherePred
  limit : Option Nat
  offset : Nat
deriving DecidableEq

/-- `statement.where(predicate)`. -/
def SelectStmt.addWhere (s : SelectStmt) (p : WherePred) : SelectStmt :=
  { s with wheres := s.wheres ++ [p] }

/-- The repository's base statement, `select(self.model_type)`. -/
def baseSelect : SelectStmt := { wheres := [], limit := none, offset := 0 }

/-- A row satisfies every WHERE clause of the statement. -/
def stmtHolds (s : SelectStmt) (e : Entity) : Bool :=
  s.wheres.all (fun p => p.holds e)

/-- SQL pagination: OFFSET drops leading rows, LIMIT caps what remains. -/
def applyPage (limit : Option Nat) (offset : Nat) (l : List Entity) : List Entity :=
  match limit with
  | none => l.drop offset
  | some n => (l.drop offset).take n

/-- Run a select over the table: WHERE in table order, then pagination. -/
def runSelect (db : List Entity) (s : SelectStmt) : List Entity :=
  applyPage s.limit s.offset (db.filter (stmtHolds s))

/-- Run the `count` statement built by `SQLAlchemyRepository.count`
(`with_only_columns(sql_func.count(id), maintain_column_froms=True)` over the
same FROM/WHERE): the number of matching rows.  The count path never carries
LIMIT/OFFSET: the base select has none and the count statement is built with
`apply_pagination=False`. -/
def runCount (db : List Entity) (s : SelectStmt) : Nat :=
  (db.filter (stmtHolds s)).length

/-- Run the statement built by `list_and_count`
(`add_columns(over(sql_func.count(id)))`): each returned row is paired with
the windowed count, which SQL evaluates over the whole WHERE-matching set
before LIMIT/OFFSET are applied, so it is identical on every row. -/
def runSelectWindowCount (db : List Entity) (s : SelectStmt) : List (Entity × Nat) :=
  let matched := db.filter (stmtHolds s)
  (applyPage s.limit s.offset matched).map (fun e => (e, matched.length))

/-- `repository/filters.py` `BeforeAfter` (not under `src/`; its shape is
fixed by how `_apply_filters` consumes it): a field name and the two optional
datetime bounds. -/
structure BeforeAfter : Type where
  field_name : String
  before : Option Val
  after : Option Val
deriving DecidableEq

/-- `repository/filters.py` `CollectionFilter`: a field name and the finite
value set. -/
structure CollectionFilter : Type where
  field_name : String
  values : List Val
deriving DecidableEq

/-- `repository/filters.py` `LimitOffset`: the pagination window. -/
structure LimitOffset : Type where
  limit : Nat
  offset : Nat
deriving DecidableEq

/-- `FilterTypes`, the closed union of the three filter variants that
`_apply_filters` dispatches on. -/
inductive FilterTypes : Type
| beforeAfter (f : BeforeAfter)
| collectionFilter (f : CollectionFilter)
| limitOffset (f : LimitOffset)
deriving DecidableEq

/-- `SQLAlchemyRepository._apply_limit_offset_pagination`:
`statement.limit(limit).offset(offset)`. -/
def _apply_limit_offset_pagination (limit offset : Nat) (statement : SelectStmt) : SelectStmt :=
  { statement with limit := some limit, offset := offset }

/-- `SQLAlchemyRepository._filter_in_collection`: `if not values: return
statement` (an empty membership set filters nothing out), otherwise add the
`field.in_(values)` predicate. -/
def _filter_in_collection (field_name : String) (values : List Val) (statement : SelectStmt) : SelectStmt :=
  if values = [] then statement
  else statement.addWhere (.inSet field_name values)

/-- `SQLAlchemyRepository._filter_on_datetime_field`, exactly as the source
has it: `if before is not None: statement = statement.where(field < before)`
then `if after is not None: statement = statement.where(field > before)` —
the second comparison really is against `before` in the source. -/
def _filter_on_datetime_field (field_name : String) (before after : Option Val)
    (statement : SelectStmt) : SelectStmt :=
  let statement1 :=
    match before with
    | some b => statement.addWhere (.lt field_name (some b))
    | none => statement
  match after with
  | some _ => statement1.addWhere (.gt field_name before)
  | none => statement1

/-- One iteration of the `for filter_ in filters` loop body of
`_apply_filters`: dispatch on the filter variant, applying `LimitOffset`
only when `apply_pagination` is set. -/
def _apply_one_filter (apply_pagination : Bool) (statement : SelectStmt)
    (filter_ : FilterTypes) : SelectStmt :=
  match filter_ with
  | .limitOffset f =>
    if apply_pagination then
      _apply_limit_offset_pagination f.limit f.offset statement
    else statement
  | .beforeAfter f =>
    _filter_on_datetime_field f.field_name f.before f.after statement
  | .collectionFilter f =>
    _filter_in_collection f.field_name f.values statement

/-- `SQLAlchemyRepository._apply_filters`: fold the loop body over the
caller-given filter list. -/
def _apply_filters (filters : List FilterTypes) (apply_pagination : Bool)
    (statement : SelectStmt) : SelectStmt :=
  filters.foldl (_apply_one_filter apply_pagination) statement

/-- `SQLAlchemyRepository._filter_select_by_kwargs`: one
`statement.where(getattr(model, key) == val)` per keyword constraint. -/
def _filter_select_by_kwargs (statement : SelectStmt) (kwargs : List (String × Val)) : SelectStmt :=
  kwargs.foldl (fun statement kv => statement.addWhere (.eqv kv.1 kv.2)) statement

/-- The exception classes the repository code raises or catches, one
constructor per Python class: `IntegrityError` and (non-integrity)
`SQLAlchemyError` are the backend-native failures, `ConflictError`,
`StarliteSaqlalchemyError` (the generic storage error) and the
`NotFoundError` raised by `check_not_found` are the domain errors from
`starlite_saqlalchemy/exceptions.py`. -/
inductive Exc : Type
| integrityError (msg : String)
| sqlalchemyError (msg : String)
| conflictError
| starliteSaqlalchemyError (msg : String)
| notFoundError
deriving DecidableEq

/-- `wrap_sqlalchemy_exception` applied to the outcome of the wrapped block:
`except IntegrityError as exc: raise ConflictError from exc`,
`except SQLAlchemyError as exc: raise
StarliteSaqlalchemyError(f"An exception occurred: {exc}") from exc`;
a successful result and any non-SQLAlchemy exception pass through. -/
def wrap_sqlalchemy_exception {α : Type} : Except Exc α → Except Exc α
| .ok a => .ok a
| .error (.integrityError _) => .error .conflictError
| .error (.sqlalchemyError msg) =>
  .error (.starliteSaqlalchemyError ("An exception occurred: " ++ msg))
| .error e => .error e

/-- `Result.scalar_one_or_none()`: none for no rows, the row if exactly one,
and `MultipleResultsFound` (a `SQLAlchemyError`) for more. -/
def scalar_one_or_none (rows : List Entity) : Except Exc (Option Entity) :=
  match rows with
  | [] => .ok none
  | [e] => .ok (some e)
  | _ => .error (.sqlalchemyError "Multiple rows were found when one or none was required")

/-- Modelled from the spec: `AbstractRepository.check_not_found` lives in
`repository/abc.py`, which is not among the sources here; per the spec's
operation contracts it fails with `NotFoundError` when the instance is
absent and passes it through otherwise. -/
def check_not_found (inst : Option Entity) : Except Exc Entity :=
  match inst with
  | none => .error .notFoundError
  | some e => .ok e

/-- A mutation queued on the session, applied at flush time: `session.add`
queues an insert, `session.merge` an update-or-insert keyed on the primary
key, `session.delete` a removal. -/
inductive PendingOp : Type
| ins (e : Entity)
| mrg (e : Entity)
| del (i : Int)
deriving DecidableEq

/-- Apply one queued mutation to the table. -/
def applyPending (db : List Entity) : PendingOp → List Entity
| .ins e => db ++ [e]
| .mrg e =>
  if db.any (fun r => r.id = e.id) then
    db.map (fun r => if r.id = e.id then e else r)
  else db ++ [e]
| .del i => db.filter (fun r => r.id ≠ i)

/-- The unit-of-work as the repository observes it: the durable table, the
identifiers of entities currently attached to the session, the queue of
unflushed mutations, and the source of generated primary keys (`uuid4`
modelled as a fresh counter). -/
structure RState : Type where
  db : List Entity
  attached : List Int
  pending : List PendingOp
  fresh : Int
deriving DecidableEq

/-- `session.flush()`: make every queued mutation durable, in order. -/
def RState.flush (st : RState) : RState :=
  { st with db := st.pending.foldl applyPending st.db, pending := [] }

/-- Attach one identifier to the session (idempotent). -/
def RState.attach1 (st : RState) (i : Int) : RState :=
  if st.attached.contains i then st
  else { st with attached := st.attached ++ [i] }

/-- Loading rows attaches each of them to the session. -/
def RState.attachAll (st : RState) (es : List Entity) : RState :=
  es.foldl (fun st e => st.attach1 e.id) st

/-- `session.expunge(instance)`: detach the instance from the session. -/
def RState.expunge (st : RState) (e : Entity) : RState :=
  { st with attached := st.attached.filter (fun a => a ≠ e.id) }

/-- The `for instance in instances: self.session.expunge(instance)` loops. -/
def RState.expungeAll (st : RState) (es : List Entity) : RState :=
  es.foldl RState.expunge st

/-- `session.add(model)`: attach and queue the insert. -/
def session_add (st : RState) (e : Entity) : RState :=
  let st := st.attach1 e.id
  { st with pending := st.pending ++ [.ins e] }

/-- `session.merge(model)`: returns the merged instance (carrying exactly the
supplied state), attached, with the update-or-insert queued. -/
def session_merge (st : RState) (e : Entity) : Entity × RState :=
  let st := st.attach1 e.id
  (e, { st with pending := st.pending ++ [.mrg e] })

/-- `session.delete(instance)`: queue the removal (the instance stays
attached until it is expunged). -/
def session_delete (st : RState) (e : Entity) : RState :=
  { st with pending := st.pending ++ [.del e.id] }

/-- `session.refresh(instance)`: re-read the instance's row from the table.
Server-generated defaults are not modelled, so on every path the repository
takes the row equals the flushed instance. -/
def RState.refreshed (st : RState) (e : Entity) : Entity :=
  match st.db.find? (fun r => r.id = e.id) with
  | some r => r
  | none => e

/-- `session.execute(select_statement)`: autoflush, run the select over the
table, attach the loaded rows. -/
def executeSelect (statement : SelectStmt) (st : RState) : List Entity × RState :=
  let st := st.flush
  let rows := runSelect st.db statement
  (rows, st.attachAll rows)

/-- Execute the aggregate `count` statement: autoflush and read the scalar. -/
def executeCount (statement : SelectStmt) (st : RState) : Nat × RState :=
  let st := st.flush
  (runCount st.db statement, st)

/-- Execute the windowed-count statement of `list_and_count`: autoflush, run
it, attach the loaded entity of each returned row. -/
def executeSelectWindowCount (statement : SelectStmt) (st : RState) :
    List (Entity × Nat) × RState :=
  let st := st.flush
  let rows := runSelectWindowCount st.db statement
  (rows, st.attachAll (rows.map Prod.fst))

/-- `id IN (item_ids)` on the primary-key column, as the bulk DELETE builds
it; an empty list renders as a predicate matching no row. -/
def inIds (ids : List Int) (i : Int) : Bool :=
  ids.any (fun j => j = i)

/-- The per-connection capability flags the bulk operations branch on:
`dialect.insert_executemany_returning` and its update/delete analogues. -/
structure Dialect : Type where
  insert_executemany_returning : Bool
  update_executemany_returning : Bool
  delete_executemany_returning : Bool
deriving DecidableEq

/-- `SQLAlchemyRepository.get`: filter the base statement by the identifier
kwarg, `scalar_one_or_none`, `check_not_found`, expunge, return — all inside
`wrap_sqlalchemy_exception`. -/
def Repo.get (item_id : Int) (st : RState) : Except Exc Entity × RState :=
  let statement := _filter_select_by_kwargs baseSelect [("id", .int item_id)]
  let pr := executeSelect statement st
  match scalar_one_or_none pr.1 with
  | .error exc => (wrap_sqlalchemy_exception (Except.error exc), pr.2)
  | .ok oinst =>
    match check_not_found oinst with
    | .error exc => (wrap_sqlalchemy_exception (Except.error exc), pr.2)
    | .ok inst => (wrap_sqlalchemy_exception (Except.ok inst), pr.2.expunge inst)

/-- `SQLAlchemyRepository.get_one`: like `get` with arbitrary equality
kwargs. -/
def Repo.get_one (kwargs : List (String × Val)) (st : RState) : Except Exc Entity × RState :=
  let statement := _filter_select_by_kwargs baseSelect kwargs
  let pr := executeSelect statement st
  match scalar_one_or_none pr.1 with
  | .error exc => (wrap_sqlalchemy_exception (Except.error exc), pr.2)
  | .ok oinst =>
    match check_not_found oinst with
    | .error exc => (wrap_sqlalchemy_exception (Except.error exc), pr.2)
    | .ok inst => (wrap_sqlalchemy_exception (Except.ok inst), pr.2.expunge inst)

/-- `SQLAlchemyRepository.get_one_or_none`: `scalar_one_or_none`, expunge
only when an instance came back (`if instance:`), `return instance or None`. -/
def Repo.get_one_or_none (kwargs : List (String × Val)) (st : RState) :
    Except Exc (Option Entity) × RState :=
  let statement := _filter_select_by_kwargs baseSelect kwargs
  let pr := executeSelect statement st
  match scalar_one_or_none pr.1 with
  | .error exc => (wrap_sqlalchemy_exception (Except.error exc), pr.2)
  | .ok (some inst) => (wrap_sqlalchemy_exception (Except.ok (some inst)), pr.2.expunge inst)
  | .ok none => (wrap_sqlalchemy_exception (Except.ok none), pr.2)

/-- `SQLAlchemyRepository.add`: `_attach_to_session(data)` (strategy "add"),
flush, refresh, expunge, return. -/
def Repo.add (data : Entity) (st : RState) : Except Exc Entity × RState :=
  let st := session_add st data
  let st := st.flush
  let inst := st.refreshed data
  (wrap_sqlalchemy_exception (Except.ok inst), st.expunge inst)

/-- `self.model_type(**kwargs)` as `get_or_create` constructs it: the column
mapping comes from the kwargs; the primary key is the `id` kwarg when given,
otherwise the generated default (`uuid4`, modelled by the state's fresh
counter, which `get_or_create` passes in). -/
def model_type_new (generated_id : Int) (kwargs : List (String × Val)) : Entity :=
  match kwargs.lookup "id" with
  | some (.int i) => { id := i, attrs := kwargs.filter (fun kv => kv.1 ≠ "id") }
  | _ => { id := generated_id, attrs := kwargs.filter (fun kv => kv.1 ≠ "id") }

/-- `SQLAlchemyRepository.get_or_create`: `get_one_or_none(**kwargs)`; if an
instance exists return `(existing, False)`, else `(add(model_type(**kwargs)),
True)`. -/
def Repo.get_or_create (kwargs : List (String × Val)) (st : RState) :
    Except Exc (Entity × Bool) × RState :=
  match Repo.get_one_or_none kwargs st with
  | (.error exc, st) => (.error exc, st)
  | (.ok (some existing), st) => (.ok (existing, false), st)
  | (.ok none, st) =>
    let created := model_type_new st.fresh kwargs
    let st := { st with fresh := st.fresh + 1 }
    match Repo.add created st with
    | (.error exc, st) => (.error exc, st)
    | (.ok inst, st) => (.ok (inst, true), st)

/-- `SQLAlchemyRepository.count`: rebuild the statement as a `count(id)`
aggregate, apply the filters with `apply_pagination=False`, then the kwargs,
and read the scalar.  (The source runs this outside
`wrap_sqlalchemy_exception`, and in this model the aggregate cannot fail.) -/
def Repo.count (filters : List FilterTypes) (kwargs : List (String × Val))
    (st : RState) : Nat × RState :=
  let statement := _apply_filters filters false baseSelect
  let statement := _filter_select_by_kwargs statement kwargs
  executeCount statement st

/-- `SQLAlchemyRepository.list`: apply the filters (pagination included) and
the kwargs to the base statement, execute, expunge every returned row. -/
def Repo.list (filters : List FilterTypes) (kwargs : List (String × Val))
    (st : RState) : Except Exc (List Entity) × RState :=
  let statement := _apply_filters filters true baseSelect
  let statement := _filter_select_by_kwargs statement kwargs
  let pr := executeSelect statement st
  (wrap_sqlalchemy_exception (Except.ok pr.1), pr.2.expungeAll pr.1)

/-- `SQLAlchemyRepository.list_and_count`: add the windowed
`count(id) OVER ()` column, apply filters (pagination included) and kwargs,
execute once; expunge and collect each row's entity, and take the total from
the first row (`if i == 0: count = count_value`), `0` when no row came
back. -/
def Repo.list_and_count (filters : List FilterTypes) (kwargs : List (String × Val))
    (st : RState) : Except Exc (List Entity × Nat) × RState :=
  let statement := _apply_filters filters true baseSelect
  let statement := _filter_select_by_kwargs statement kwargs
  let pr := executeSelectWindowCount statement st
  let insts := pr.1.map Prod.fst
  let total : Nat :=
    match pr.1 with
    | [] => 0
    | r :: _ => r.2
  (wrap_sqlalchemy_exception (Except.ok (insts, total)), pr.2.expungeAll insts)

/-- `SQLAlchemyRepository.update`: read the current row via `get`
(propagating `NotFoundError`), `_attach_to_session(data, "merge")`, flush,
refresh, expunge, return. -/
def Repo.update (data : Entity) (st : RState) : Except Exc Entity × RState :=
  let item_id := data.id
  match Repo.get item_id st with
  | (.error exc, st) => (wrap_sqlalchemy_exception (Except.error exc), st)
  | (.ok _, st) =>
    let pr := session_merge st data
    let st := pr.2.flush
    let inst := st.refreshed pr.1
    (wrap_sqlalchemy_exception (Except.ok inst), st.expunge inst)

/-- `SQLAlchemyRepository.upsert`: `_attach_to_session(data, "merge")`,
flush, refresh, expunge, return. -/
def Repo.upsert (data : Entity) (st : RState) : Except Exc Entity × RState :=
  let pr := session_merge st data
  let st := pr.2.flush
  let inst := st.refreshed pr.1
  (wrap_sqlalchemy_exception (Except.ok inst), st.expunge inst)

/-- `SQLAlchemyRepository.add_many`.  With
`insert_executemany_returning`: one bulk `INSERT .. RETURNING`, expunge each
returned instance.  Otherwise: collect the primary keys (every `to_dict()`
mapping of this model carries its key; the `uuid4` pre-assignment for keyless
mappings never fires), bulk insert without returning, and re-select the
inserted rows through `list` with a `CollectionFilter` on the keys. -/
def Repo.add_many (d : Dialect) (data : List Entity) (st : RState) :
    Except Exc (List Entity) × RState :=
  if d.insert_executemany_returning then
    let st := st.flush
    let insts := data
    let st := { st with db := st.db ++ data }
    let st := st.attachAll insts
    let st := st.expungeAll insts
    (wrap_sqlalchemy_exception (Except.ok insts), st)
  else
    let new_primary_keys := data.map (fun datum => datum.id)
    let st := st.flush
    let st := { st with db := st.db ++ data }
    Repo.list [.collectionFilter ⟨"id", new_primary_keys.map Val.int⟩] [] st

/-- The effect of the bulk `UPDATE` executed with a list of `to_dict()`
mappings: each table row whose primary key appears in the data takes that
datum's values. -/
def bulkUpdate (db : List Entity) (data : List Entity) : List Entity :=
  db.map (fun r =>
    match data.find? (fun u => u.id = r.id) with
    | some u => u
    | none => r)

/-- `SQLAlchemyRepository.update_many`.  With
`update_executemany_returning`: one bulk `UPDATE .. RETURNING` (the returned
instances are the post-update rows the data targeted), flush, expunge each.
Otherwise: collect `datum.get("id")` for each datum, bulk update, flush, and
re-select through `list` with a `CollectionFilter` on the keys. -/
def Repo.update_many (d : Dialect) (data : List Entity) (st : RState) :
    Except Exc (List Entity) × RState :=
  if d.update_executemany_returning then
    let st := st.flush
    let newDb := bulkUpdate st.db data
    let insts := newDb.filter (fun r => data.any (fun u => u.id = r.id))
    let st := { st with db := newDb }
    let st := st.attachAll insts
    let st := st.expungeAll insts
    (wrap_sqlalchemy_exception (Except.ok insts), st)
  else
    let updated_primary_keys := data.map (fun datum => datum.id)
    let st := st.flush
    let st := { st with db := bulkUpdate st.db data }
    Repo.list [.collectionFilter ⟨"id", updated_primary_keys.map Val.int⟩] [] st

/-- `SQLAlchemyRepository.delete`: fetch via `get` (propagating
`NotFoundError`), `session.delete`, flush, expunge, return the pre-deletion
snapshot. -/
def Repo.delete (item_id : Int) (st : RState) : Except Exc Entity × RState :=
  match Repo.get item_id st with
  | (.error exc, st) => (wrap_sqlalchemy_exception (Except.error exc), st)
  | (.ok inst, st) =>
    let st := session_delete st inst
    let st := st.flush
    (wrap_sqlalchemy_exception (Except.ok inst), st.expunge inst)

/-- `SQLAlchemyRepository.delete_many`.  With
`delete_executemany_returning`: one bulk
`DELETE .. WHERE id IN (item_ids) .. RETURNING`, flush, expunge each returned
pre-deletion row.  Otherwise: pre-fetch the rows through `list` with a
`CollectionFilter` on the identifiers, bulk delete, flush, and return the
pre-fetched snapshots (already expunged by `list`). -/
def Repo.delete_many (d : Dialect) (item_ids : List Int) (st : RState) :
    Except Exc (List Entity) × RState :=
  if d.delete_executemany_returning then
    let st := st.flush
    let insts := st.db.filter (fun r => inIds item_ids r.id)
    let st := { st with db := st.db.filter (fun r => !(inIds item_ids r.id)) }
    let st := st.flush
    let st := st.attachAll insts
    let st := st.expungeAll insts
    (wrap_sqlalchemy_exception (Except.ok insts), st)
  else
    match Repo.list [.collectionFilter ⟨"id", item_ids.map Val.int⟩] [] st with
    | (.error exc, st) => (wrap_sqlalchemy_exception (Except.error exc), st)
    | (.ok insts, st) =>
      let st := { st with db := st.db.filter (fun r => !(inIds item_ids r.id)) }
      let st := st.flush
      (wrap_sqlalchemy_exception (Except.ok insts), st)

/-- Modelled from the spec: `slugify` lives in `starlite_saqlalchemy/utils.py`,
which is not among the sources here.  Per the spec it "normalizes sourceText
into a URL-safe slug" with `"Hello World"` becoming `"hello-world"`: lowercase
the text, replace each run of non-alphanumeric characters by a single hyphen,
and trim leading and trailing hyphens. -/
def dashify (c : Char) : Char := if c.isAlphanum then c else '-'

/-- Collapse each run of consecutive hyphens to one. -/
def squeezeDashes : List Char → List Char
| [] => []
| [c] => [c]
| a :: b :: rest =>
  if a = '-' && b = '-' then squeezeDashes (b :: rest)
  else a :: squeezeDashes (b :: rest)

/-- Drop hyphens at both ends. -/
def trimDashes (l : List Char) : List Char :=
  ((l.dropWhile (fun c => c = '-')).reverse.dropWhile (fun c => c = '-')).reverse

/-- Modelled from the spec (see `dashify`): the slug of a text. -/
def slugify (value : String) : String :=
  String.mk (trimDashes (squeezeDashes (value.toList.map (fun c => dashify c.toLower))))

/-- `SQLAlchemyRepositorySlugMixin._is_slug_unique`:
`get_one_or_none(slug=slug) is None`. -/
def _is_slug_unique (slug : String) (st : RState) : Except Exc Bool × RState :=
  match Repo.get_one_or_none [("slug", .str slug)] st with
  | (.error exc, st) => (.error exc, st)
  | (.ok oinst, st) => (.ok oinst.isNone, st)

/-- `SQLAlchemyRepositorySlugMixin.get_available_slug`: slugify the value;
return the slug when it is unique, else append a hyphen and the 4 characters
sampled by `random.choices(string.ascii_lowercase + string.digits, k=4)`
(the sample is the `random_string` argument), with no further uniqueness
check. -/
def get_available_slug (random_string : String) (value_to_slugify : String)
    (st : RState) : Except Exc String × RState :=
  let slug := slugify value_to_slugify
  match _is_slug_unique slug st with
  | (.error exc, st) => (.error exc, st)
  | (.ok true, st) => (.ok slug, st)
  | (.ok false, st) => (.ok (slug ++ "-" ++ random_string), st)

/-- A `Page` (pagination) filter, the variant `count` never applies. -/
def isPageFilter : FilterTypes → Bool
| .limitOffset _ => true
| _ => false

/-- A filter set "stripped of any Page filter", the spec's
`F_without_page`. -/
def stripPage (filters : List FilterTypes) : List FilterTypes :=
  filters.filter (fun f => !(isPageFilter f))

/-- The WHERE clauses one filter contributes (none for pagination). -/
def filterWheres : FilterTypes → List WherePred
| .limitOffset _ => []
| .beforeAfter f =>
  (match f.before with
   | some b => [WherePred.lt f.field_name (some b)]
   | none => []) ++
  (match f.after with
   | some _ => [WherePred.gt f.field_name f.before]
   | none => [])
| .collectionFilter f =>
  if f.values = [] then [] else [WherePred.inSet f.field_name f.values]

theorem wrap_ok {α : Type} (a : α) :
    wrap_sqlalchemy_exception (Except.ok a) = Except.ok a := rfl

theorem wrap_error_ne_ok {α : Type} (exc : Exc) (a : α) :
    wrap_sqlalchemy_exception (Except.error exc) ≠ Except.ok a := by
  cases exc <;> simp [wrap_sqlalchemy_exception]

theorem mem_expunge_attached (st : RState) (e : Entity) (a : Int) :
    a ∈ (st.expunge e).attached ↔ a ∈ st.attached ∧ a ≠ e.id := by
  simp [RState.expunge, List.mem_filter]

theorem expunge_self_not_attached (st : RState) (e : Entity) :
    e.id ∉ (st.expunge e).attached := by
  simp [mem_expunge_attached]

theorem expungeAll_cons (st : RState) (x : Entity) (xs : List Entity) :
    st.expungeAll (x :: xs) = (st.expunge x).expungeAll xs := rfl

theorem mem_expungeAll_attached (es : List Entity) (st : RState) (a : Int) :
    a ∈ (st.expungeAll es).attached ↔ a ∈ st.attached ∧ ∀ e ∈ es, a ≠ e.id := by
  induction es generalizing st with
  | nil => simp [RState.expungeAll]
  | cons x xs ih =>
    rw [expungeAll_cons, ih]
    simp [mem_expunge_attached, and_assoc]

theorem expungeAll_not_attached_of_mem {es : List Entity} {e : Entity}
    (st : RState) (he : e ∈ es) : e.id ∉ (st.expungeAll es).attached := by
  rw [mem_expungeAll_attached]
  rintro ⟨-, h⟩
  exact h e he rfl

theorem get_detaches (item_id : Int) (st : RState) (e : Entity) (st' : RState)
    (h : Repo.get item_id st = (.ok e, st')) : e.id ∉ st'.attached := by
  simp only [Repo.get] at h
  split at h
  · simp only [Prod.mk.injEq] at h
    exact absurd h.1 (wrap_error_ne_ok _ _)
  · split at h
    · simp only [Prod.mk.injEq] at h
      exact absurd h.1 (wrap_error_ne_ok _ _)
    · simp only [wrap_ok, Prod.mk.injEq, Except.ok.injEq] at h
      obtain ⟨rfl, rfl⟩ := h
      exact expunge_self_not_attached _ _

theorem get_one_detaches (kwargs : List (String × Val)) (st : RState) (e : Entity)
    (st' : RState) (h : Repo.get_one kwargs st = (.ok e, st')) : e.id ∉ st'.attached := by
  simp only [Repo.get_one] at h
  split at h
  · simp only [Prod.mk.injEq] at h
    exact absurd h.1 (wrap_error_ne_ok _ _)
  · split at h
    · simp only [Prod.mk.injEq] at h
      exact absurd h.1 (wrap_error_ne_ok _ _)
    · simp only [wrap_ok, Prod.mk.injEq, Except.ok.injEq] at h
      obtain ⟨rfl, rfl⟩ := h
      exact expunge_self_not_attached _ _

theorem get_one_or_none_detaches (kwargs : List (String × Val)) (st : RState)
    (oe : Option Entity) (st' : RState) (e : Entity)
    (h : Repo.get_one_or_none kwargs st = (.ok oe, st')) (hoe : oe = some e) :
    e.id ∉ st'.attached := by
  subst hoe
  simp only [Repo.get_one_or_none] at h
  split at h
  · simp only [Prod.mk.injEq] at h
    exact absurd h.1 (wrap_error_ne_ok _ _)
  · simp only [wrap_ok, Prod.mk.injEq, Except.ok.injEq, Option.some.injEq] at h
    obtain ⟨rfl, rfl⟩ := h
    exact expunge_self_not_attached _ _
  · simp only [wrap_ok, Prod.mk.injEq] at h
    exact absurd h.1 (by simp)

theorem add_detaches (data : Entity) (st : RState) (e : Entity) (st' : RState)
    (h : Repo.add data st = (.ok e, st')) : e.id ∉ st'.attached := by
  simp only [Repo.add, wrap_ok, Prod.mk.injEq, Except.ok.injEq] at h
  obtain ⟨rfl, rfl⟩ := h
  exact expunge_self_not_attached _ _

theorem upsert_detaches (data : Entity) (st : RState) (e : Entity) (st' : RState)
    (h : Repo.upsert data st = (.ok e, st')) : e.id ∉ st'.attached := by
  simp only [Repo.upsert, wrap_ok, Prod.mk.injEq, Except.ok.injEq] at h
  obtain ⟨rfl, rfl⟩ := h
  exact expunge_self_not_attached _ _

theorem update_detaches (data : Entity) (st : RState) (e : Entity) (st' : RState)
    (h : Repo.update data st = (.ok e, st')) : e.id ∉ st'.attached := by
  simp only [Repo.update] at h
  split at h
  · simp only [Prod.mk.injEq] at h
    exact absurd h.1 (wrap_error_ne_ok _ _)
  · simp only [wrap_ok, Prod.mk.injEq, Except.ok.injEq] at h
    obtain ⟨rfl, rfl⟩ := h
    exact expunge_self_not_attached _ _

theorem list_detaches (filters : List FilterTypes) (kwargs : List (String × Val))
    (st : RState) (es : List Entity) (st' : RState) (e : Entity)
    (h : Repo.list filters kwargs st = (.ok es, st')) (he : e ∈ es) :
    e.id ∉ st'.attached := by
  simp only [Repo.list, wrap_ok, Prod.mk.injEq, Except.ok.injEq] at h
  obtain ⟨rfl, rfl⟩ := h
  exact expungeAll_not_attached_of_mem _ he

theorem list_and_count_detaches (filters : List FilterTypes)
    (kwargs : List (String × Val)) (st : RState) (es : List Entity) (n : Nat)
    (st' : RState) (e : Entity)
    (h : Repo.list_and_count filters kwargs st = (.ok (es, n), st')) (he : e ∈ es) :
    e.id ∉ st'.attached := by
  simp only [Repo.list_and_count, wrap_ok, Prod.mk.injEq, Except.ok.injEq] at h
  obtain ⟨⟨rfl, -⟩, rfl⟩ := h
  exact expungeAll_not_attached_of_mem _ he

theorem get_or_create_detaches (kwargs : List (String × Val)) (st : RState)
    (e : Entity) (b : Bool) (st' : RState)
    (h : Repo.get_or_create kwargs st = (.ok (e, b), st')) : e.id ∉ st'.attached := by
  simp only [Repo.get_or_create] at h
  split at h
  · simp only [Prod.mk.injEq] at h
    exact absurd h.1 (by simp)
  · rename_i heq
    simp only [Prod.mk.injEq, Except.ok.injEq] at h
    obtain ⟨⟨rfl, -⟩, rfl⟩ := h
    exact get_one_or_none_detaches _ _ _ _ _ heq rfl
  · split at h
    · simp only [Prod.mk.injEq] at h
      exact absurd h.1 (by simp)
    · rename_i heq2
      simp only [Prod.mk.injEq, Except.ok.injEq] at h
      obtain ⟨⟨rfl, -⟩, rfl⟩ := h
      exact add_detaches _ _ _ _ heq2

theorem delete_detaches (item_id : Int) (st : RState) (e : Entity) (st' : RState)
    (h : Repo.delete item_id st = (.ok e, st')) : e.id ∉ st'.attached := by
  simp only [Repo.delete] at h
  split at h
  · simp only [Prod.mk.injEq] at h
    exact absurd h.1 (wrap_error_ne_ok _ _)
  · simp only [wrap_ok, Prod.mk.injEq, Except.ok.injEq] at h
    obtain ⟨rfl, rfl⟩ := h
    exact expunge_self_not_attached _ _

theorem add_many_detaches (d : Dialect) (data : List Entity) (st : RState)
    (es : List Entity) (st' : RState) (e : Entity)
    (h : Repo.add_many d data st = (.ok es, st')) (he : e ∈ es) :
    e.id ∉ st'.attached := by
  simp only [Repo.add_many] at h
  split at h
  · simp only [wrap_ok, Prod.mk.injEq, Except.ok.injEq] at h
    obtain ⟨rfl, rfl⟩ := h
    exact expungeAll_not_attached_of_mem _ he
  · exact list_detaches _ _ _ _ _ _ h he

theorem update_many_detaches (d : Dialect) (data : List Entity) (st : RState)
    (es : List Entity) (st' : RState) (e : Entity)
    (h : Repo.update_many d data st = (.ok es, st')) (he : e ∈ es) :
    e.id ∉ st'.attached := by
  simp only [Repo.update_many] at h
  split at h
  · simp only [wrap_ok, Prod.mk.injEq, Except.ok.injEq] at h
    obtain ⟨rfl, rfl⟩ := h
    exact expungeAll_not_attached_of_mem _ he
  · exact list_detaches _ _ _ _ _ _ h he

theorem delete_many_detaches (d : Dialect) (item_ids : List Int) (st : RState)
    (es : List Entity) (st' : RState) (e : Entity)
    (h : Repo.delete_many d item_ids st = (.ok es, st')) (he : e ∈ es) :
    e.id ∉ st'.attached := by
  simp only [Repo.delete_many] at h
  split at h
  · simp only [wrap_ok, Prod.mk.injEq, Except.ok.injEq] at h
    obtain ⟨rfl, rfl⟩ := h
    exact expungeAll_not_attached_of_mem _ he
  · split at h
    · simp only [Prod.mk.injEq] at h
      exact absurd h.1 (wrap_error_ne_ok _ _)
    · rename_i heq
      simp only [wrap_ok, Prod.mk.injEq, Except.ok.injEq] at h
      obtain ⟨rfl, hst⟩ := h
      have := list_detaches _ _ _ _ _ e heq he
      rw [← hst]
      simpa [RState.flush] using this

/-- C5: every entity returned from any repository operation (`get`,
`get_one`, `get_one_or_none`, `get_or_create`, `list`, `list_and_count`,
`add`, `add_many`, `update`, `update_many`, `upsert`, `delete`,
`delete_many`) is expunged from the session before being returned: its
identifier is not attached to the unit-of-work in the state the operation
leaves behind. -/
theorem repository_operations_return_detached_entities :
    (∀ i st e st', Repo.get i st = (.ok e, st') → e.id ∉ st'.attached) ∧
    (∀ kw st e st', Repo.get_one kw st = (.ok e, st') → e.id ∉ st'.attached) ∧
    (∀ kw st oe st' e, Repo.get_one_or_none kw st = (.ok oe, st') →
      oe = some e → e.id ∉ st'.attached) ∧
    (∀ kw st e b st', Repo.get_or_create kw st = (.ok (e, b), st') →
      e.id ∉ st'.attached) ∧
    (∀ fs kw st es st', Repo.list fs kw st = (.ok es, st') →
      ∀ e ∈ es, e.id ∉ st'.attached) ∧
    (∀ fs kw st es n st', Repo.list_and_count fs kw st = (.ok (es, n), st') →
      ∀ e ∈ es, e.id ∉ st'.attached) ∧
    (∀ x st e st', Repo.add x st = (.ok e, st') → e.id ∉ st'.attached) ∧
    (∀ d xs st es st', Repo.add_many d xs st = (.ok es, st') →
      ∀ e ∈ es, e.id ∉ st'.attached) ∧
    (∀ x st e st', Repo.update x st = (.ok e, st') → e.id ∉ st'.attached) ∧
    (∀ d xs st es st', Repo.update_many d xs st = (.ok es, st') →
      ∀ e ∈ es, e.id ∉ st'.attached) ∧
    (∀ x st e st', Repo.upsert x st = (.ok e, st') → e.id ∉ st'.attached) ∧
    (∀ i st e st', Repo.delete i st = (.ok e, st') → e.id ∉ st'.attached) ∧
    (∀ d ids st es st', Repo.delete_many d ids st = (.ok es, st') →
      ∀ e ∈ es, e.id ∉ st'.attached) :=
  ⟨get_detaches,
   get_one_detaches,
   get_one_or_none_detaches,
   fun kw st e b st' h => get_or_create_detaches kw st e b st' h,
   fun fs kw st es st' h e he => list_detaches fs kw st es st' e h he,
   fun fs kw st es n st' h e he => list_and_count_detaches fs kw st es n st' e h he,
   add_detaches,
   fun d xs st es st' h e he => add_many_detaches d xs st es st' e h he,
   update_detaches,
   fun d xs st es st' h e he => update_many_detaches d xs st es st' e h he,
   upsert_detaches,
   delete_detaches,
   fun d ids st es st' h e he => delete_many_detaches d ids st es st' e h he⟩

/-- C5 witness: after `add` of the entity with identifier 100 on a fresh
session, 100 is not attached to the session the call leaves behind. -/
theorem repository_operations_return_detached_entities_witness :
    (100 : Int) ∉ ((Repo.add ⟨100, []⟩ ⟨[], [], [], 0⟩).2).attached :=
  repository_operations_return_detached_entities.2.2.2.2.2.2.1
    ⟨100, []⟩ ⟨[], [], [], 0⟩ ⟨100, []⟩ (Repo.add ⟨100, []⟩ ⟨[], [], [], 0⟩).2 rfl

/-- C4: the exception-translation boundary re-raises a uniqueness/constraint
violation (`IntegrityError`) as `ConflictError`, re-raises any other
backend-native failure (`SQLAlchemyError`) as the generic storage error
`StarliteSaqlalchemyError` carrying the original message, and passes a
successful result through unchanged. -/
theorem wrap_sqlalchemy_exception_contract :
    ∀ (α : Type) (a : α) (msg : String),
      wrap_sqlalchemy_exception (Except.ok a) = Except.ok a ∧
      wrap_sqlalchemy_exception (Except.error (Exc.integrityError msg) : Except Exc α) =
        Except.error Exc.conflictError ∧
      wrap_sqlalchemy_exception (Except.error (Exc.sqlalchemyError msg) : Except Exc α) =
        Except.error (Exc.starliteSaqlalchemyError ("An exception occurred: " ++ msg)) :=
  fun _ _ _ => ⟨rfl, rfl, rfl⟩

/-- C6: a `Membership` (`CollectionFilter`) with an empty value set leaves
the statement unchanged — so it matches everything, as the `list` over it
shows — while a non-empty value set adds the in-set predicate on the named
field. -/
theorem membership_filter_empty_set_matches_everything :
    ∀ (f : String) (s : SelectStmt) (v : Val) (vs : List Val)
      (kw : List (String × Val)) (st : RState),
      _filter_in_collection f [] s = s ∧
      _filter_in_collection f (v :: vs) s =
        s.addWhere (WherePred.inSet f (v :: vs)) ∧
      Repo.list [FilterTypes.collectionFilter ⟨f, []⟩] kw st = Repo.list [] kw st :=
  fun _ _ _ _ _ _ => ⟨rfl, rfl, rfl⟩

/-- C1 (evidence for the defect): `_filter_on_datetime_field` guards the
lower-bound predicate on `after` but compares against `before`, so with
`before = 10` and `after = 5` the built WHERE clauses are
`created < 10 AND created > 10`, and `list` drops the entity whose `created`
value 7 lies strictly between the bounds instead of returning it. -/
theorem range_filter_compares_lower_bound_against_upper_bound :
    (_filter_on_datetime_field "created" (some (.int 10)) (some (.int 5))
        baseSelect).wheres =
      [WherePred.lt "created" (some (.int 10)),
       WherePred.gt "created" (some (.int 10))] ∧
    (Repo.list [.beforeAfter ⟨"created", some (.int 10), some (.int 5)⟩] []
        ⟨[⟨1, [("created", .int 7)]⟩], [], [], 0⟩).1 = .ok [] :=
  ⟨rfl, rfl⟩

theorem apply_one_wheres (b : Bool) (s : SelectStmt) (f : FilterTypes) :
    (_apply_one_filter b s f).wheres = s.wheres ++ filterWheres f := by
  cases f with
  | limitOffset f =>
    cases b <;>
      simp [_apply_one_filter, _apply_limit_offset_pagination, filterWheres]
  | beforeAfter f =>
    rcases f with ⟨n, hb, ha⟩
    cases hb <;> cases ha <;>
      simp [_apply_one_filter, _filter_on_datetime_field, filterWheres,
        SelectStmt.addWhere]
  | collectionFilter f =>
    rcases f with ⟨n, vs⟩
    rcases vs with _ | ⟨v, vs⟩ <;>
      simp [_apply_one_filter, _filter_in_collection, filterWheres,
        SelectStmt.addWhere]

theorem apply_one_preserves_page (b : Bool) (s : SelectStmt) (f : FilterTypes)
    (h : b = false ∨ isPageFilter f = false) :
    (_apply_one_filter b s f).limit = s.limit ∧
    (_apply_one_filter b s f).offset = s.offset := by
  cases f with
  | limitOffset f =>
    rcases h with rfl | h
    · simp [_apply_one_filter]
    · simp [isPageFilter] at h
  | beforeAfter f =>
    rcases f with ⟨n, hb, ha⟩
    cases hb <;> cases ha <;>
      simp [_apply_one_filter, _filter_on_datetime_field, SelectStmt.addWhere]
  | collectionFilter f =>
    rcases f with ⟨n, vs⟩
    rcases vs with _ | ⟨v, vs⟩ <;>
      simp [_apply_one_filter, _filter_in_collection, SelectStmt.addWhere]

theorem apply_filters_cons (f : FilterTypes) (fs : List FilterTypes) (b : Bool)
    (s : SelectStmt) :
    _apply_filters (f :: fs) b s = _apply_filters fs b (_apply_one_filter b s f) := rfl

theorem apply_filters_wheres (filters : List FilterTypes) (b : Bool) (s : SelectStmt) :
    (_apply_filters filters b s).wheres =
      s.wheres ++ (filters.map filterWheres).flatten := by
  induction filters generalizing s with
  | nil => simp [_apply_filters]
  | cons f fs ih =>
    rw [apply_filters_cons, ih, apply_one_wheres]
    simp

theorem apply_filters_preserves_page (filters : List FilterTypes) (b : Bool)
    (s : SelectStmt) (h : ∀ f ∈ filters, b = false ∨ isPageFilter f = false) :
    (_apply_filters filters b s).limit = s.limit ∧
    (_apply_filters filters b s).offset = s.offset := by
  induction filters generalizing s with
  | nil => exact ⟨rfl, rfl⟩
  | cons f fs ih =>
    rw [apply_filters_cons]
    have hf := apply_one_preserves_page b s f (h f (by simp))
    have ih2 := ih (_apply_one_filter b s f) (fun g hg => h g (by simp [hg]))
    exact ⟨ih2.1.trans hf.1, ih2.2.trans hf.2⟩

theorem kwargs_wheres (kwargs : List (String × Val)) (s : SelectStmt) :
    (_filter_select_by_kwargs s kwargs).wheres =
      s.wheres ++ kwargs.map (fun kv => WherePred.eqv kv.1 kv.2) := by
  induction kwargs generalizing s with
  | nil => simp [_filter_select_by_kwargs]
  | cons kv kws ih =>
    have h1 : _filter_select_by_kwargs s (kv :: kws) =
        _filter_select_by_kwargs (s.addWhere (.eqv kv.1 kv.2)) kws := rfl
    rw [h1, ih]
    simp [SelectStmt.addWhere]

theorem kwargs_preserves_page (kwargs : List (String × Val)) (s : SelectStmt) :
    (_filter_select_by_kwargs s kwargs).limit = s.limit ∧
    (_filter_select_by_kwargs s kwargs).offset = s.offset := by
  induction kwargs generalizing s with
  | nil => exact ⟨rfl, rfl⟩
  | cons kv kws ih =>
    have h1 : _filter_select_by_kwargs s (kv :: kws) =
        _filter_select_by_kwargs (s.addWhere (.eqv kv.1 kv.2)) kws := rfl
    rw [h1]
    exact ⟨(ih _).1, (ih _).2⟩

theorem stripPage_no_page (filters : List FilterTypes) :
    ∀ f ∈ stripPage filters, isPageFilter f = false := by
  intro f hf
  simp only [stripPage, List.mem_filter, Bool.not_eq_true'] at hf
  exact hf.2

theorem stripPage_join (filters : List FilterTypes) :
    ((stripPage filters).map filterWheres).flatten =
      (filters.map filterWheres).flatten := by
  induction filters with
  | nil => rfl
  | cons f fs ih =>
    cases f with
    | limitOffset g =>
      simp [stripPage, List.filter_cons, isPageFilter, filterWheres] at *
      exact ih
    | beforeAfter g =>
      simp [stripPage, List.filter_cons, isPageFilter] at *
      rw [ih]
    | collectionFilter g =>
      simp [stripPage, List.filter_cons, isPageFilter] at *
      rw [ih]

/-- C2: for every filter set and equality constraints, `count` — which
applies the filters with pagination suppressed and the same equality
constraints — returns exactly the length of the list `list` returns for the
same filters stripped of any `Page` (`LimitOffset`) filter. -/
theorem count_equals_list_length_without_pagination :
    ∀ (filters : List FilterTypes) (kwargs : List (String × Val)) (st : RState),
      ∃ es st',
        Repo.list (stripPage filters) kwargs st = (.ok es, st') ∧
        (Repo.count filters kwargs st).1 = es.length := by
  intro filters kwargs st
  refine ⟨_, _, rfl, ?_⟩
  simp only [Repo.list, Repo.count, executeSelect, executeCount, runSelect, runCount]
  have hwheres :
      (_filter_select_by_kwargs (_apply_filters (stripPage filters) true baseSelect)
          kwargs).wheres =
      (_filter_select_by_kwargs (_apply_filters filters false baseSelect)
          kwargs).wheres := by
    rw [kwargs_wheres, kwargs_wheres, apply_filters_wheres, apply_filters_wheres,
      stripPage_join]
  have hpage := apply_filters_preserves_page (stripPage filters) true baseSelect
    (fun f hf => Or.inr (stripPage_no_page filters f hf))
  have hkw := kwargs_preserves_page kwargs
    (_apply_filters (stripPage filters) true baseSelect)
  have hlim :
      (_filter_select_by_kwargs (_apply_filters (stripPage filters) true baseSelect)
          kwargs).limit = none := by
    rw [(hkw).1, hpage.1]; rfl
  have hoff :
      (_filter_select_by_kwargs (_apply_filters (stripPage filters) true baseSelect)
          kwargs).offset = 0 := by
    rw [(hkw).2, hpage.2]; rfl
  have hhold :
      stmtHolds (_filter_select_by_kwargs (_apply_filters (stripPage filters) true
          baseSelect) kwargs) =
      stmtHolds (_filter_select_by_kwargs (_apply_filters filters false baseSelect)
          kwargs) := by
    funext e
    simp [stmtHolds, hwheres]
  rw [hlim, hoff, hhold]
  simp [applyPage]

/-- C3 counterexample: one entity, `LimitOffset(limit=1, offset=1)` — the
page is empty, so `list_and_count` returns total 0, while `count((), E)`
over the unpaginated matching set is 1: the claimed equality of the total
with `count((), E)` fails when no row comes back. -/
theorem list_and_count_total_zero_on_empty_page :
    (Repo.list_and_count [.limitOffset ⟨1, 1⟩] [] ⟨[⟨1, []⟩], [], [], 0⟩).1 =
      .ok ([], 0) ∧
    (Repo.count [] [] ⟨[⟨1, []⟩], [], [], 0⟩).1 = 1 ∧
    (0 : Nat) ≠ 1 := ⟨rfl, rfl, by decide⟩

/-- C3 (amended): `list_and_count` with `Page(L, O)` returns at most `L`
entities; when at least one row comes back the total is the windowed count
of the whole unpaginated matching set, i.e. `count((), E)`; when the page is
empty the total the loop never wrote stays 0. -/
theorem list_and_count_page_semantics :
    ∀ (L O : Nat) (kwargs : List (String × Val)) (st : RState) (es : List Entity)
      (total : Nat) (st' : RState),
      Repo.list_and_count [FilterTypes.limitOffset ⟨L, O⟩] kwargs st =
        (.ok (es, total), st') →
      es.length ≤ L ∧
      (es ≠ [] → total = (Repo.count [] kwargs st).1) ∧
      (es = [] → total = 0) := by
  intro L O kwargs st es total st' h
  have hstmt : _apply_filters [FilterTypes.limitOffset ⟨L, O⟩] true baseSelect =
      (⟨[], some L, O⟩ : SelectStmt) := rfl
  simp only [Repo.list_and_count, executeSelectWindowCount, runSelectWindowCount,
    hstmt, wrap_ok, Prod.mk.injEq, Except.ok.injEq] at h
  obtain ⟨⟨hes, htot⟩, -⟩ := h
  have hlim := (kwargs_preserves_page kwargs (⟨[], some L, O⟩ : SelectStmt)).1
  have hoff := (kwargs_preserves_page kwargs (⟨[], some L, O⟩ : SelectStmt)).2
  rw [hlim, hoff] at hes htot
  have hcount :
      (Repo.count [] kwargs st).1 =
      ((st.flush).db.filter
        (stmtHolds (_filter_select_by_kwargs (⟨[], some L, O⟩ : SelectStmt)
          kwargs))).length := by
    have hb : _apply_filters [] false baseSelect = baseSelect := rfl
    simp only [Repo.count, executeCount, runCount, hb]
    have hw : (_filter_select_by_kwargs baseSelect kwargs).wheres =
        (_filter_select_by_kwargs (⟨[], some L, O⟩ : SelectStmt) kwargs).wheres := by
      rw [kwargs_wheres, kwargs_wheres]
      rfl
    have hh : stmtHolds (_filter_select_by_kwargs baseSelect kwargs) =
        stmtHolds (_filter_select_by_kwargs (⟨[], some L, O⟩ : SelectStmt) kwargs) := by
      funext e
      simp [stmtHolds, hw]
    rw [hh]
  rcases hap : applyPage (some L)
      O ((st.flush).db.filter
        (stmtHolds (_filter_select_by_kwargs (⟨[], some L, O⟩ : SelectStmt) kwargs)))
    with _ | ⟨x, xs⟩
  · rw [hap] at hes htot
    simp only [List.map_nil] at hes htot
    refine ⟨?_, ?_, ?_⟩
    · rw [← hes]; simp
    · intro hne
      exact absurd hes.symm hne
    · intro _
      exact htot.symm
  · rw [hap] at hes htot
    simp only [List.map_cons, List.map_map] at hes htot
    refine ⟨?_, ?_, ?_⟩
    · have hlen : es.length = (x :: xs).length := by
        rw [← hes]
        simp
      rw [hlen, ← hap]
      rw [show applyPage (some L)
          O ((st.flush).db.filter
            (stmtHolds (_filter_select_by_kwargs (⟨[], some L, O⟩ : SelectStmt)
              kwargs))) =
          List.take L (List.drop
            O ((st.flush).db.filter
              (stmtHolds (_filter_select_by_kwargs (⟨[], some L, O⟩ : SelectStmt)
                kwargs)))) from rfl]
      exact List.length_take_le _ _
    · intro _
      rw [hcount]
      exact htot.symm
    · intro hz
      rw [← hes] at hz
      exact absurd hz (by simp)

theorem attach1_db (st : RState) (i : Int) : (st.attach1 i).db = st.db := by
  unfold RState.attach1
  split <;> rfl

theorem attach1_pending (st : RState) (i : Int) :
    (st.attach1 i).pending = st.pending := by
  unfold RState.attach1
  split <;> rfl

theorem attachAll_db (es : List Entity) (st : RState) :
    (st.attachAll es).db = st.db := by
  induction es generalizing st with
  | nil => rfl
  | cons x xs ih => rw [show st.attachAll (x :: xs) = (st.attach1 x.id).attachAll xs from rfl, ih, attach1_db]

theorem attachAll_pending (es : List Entity) (st : RState) :
    (st.attachAll es).pending = st.pending := by
  induction es generalizing st with
  | nil => rfl
  | cons x xs ih => rw [show st.attachAll (x :: xs) = (st.attach1 x.id).attachAll xs from rfl, ih, attach1_pending]

theorem expungeAll_db (es : List Entity) (st : RState) :
    (st.expungeAll es).db = st.db := by
  induction es generalizing st with
  | nil => rfl
  | cons x xs ih =>
    rw [expungeAll_cons, ih]
    rfl

theorem expungeAll_pending (es : List Entity) (st : RState) :
    (st.expungeAll es).pending = st.pending := by
  induction es generalizing st with
  | nil => rfl
  | cons x xs ih =>
    rw [expungeAll_cons, ih]
    rfl

theorem applyPage_base (l : List Entity) :
    applyPage baseSelect.limit baseSelect.offset l = l := rfl

theorem stmtHolds_base (e : Entity) : stmtHolds baseSelect e = true := rfl

theorem filter_base_select (l : List Entity) :
    List.filter (stmtHolds baseSelect) l = l :=
  List.filter_eq_self.mpr (fun a _ => stmtHolds_base a)

theorem list_no_filters (st : RState) :
    Repo.list [] [] st = (.ok (st.flush).db, ((st.flush).attachAll (st.flush).db).expungeAll (st.flush).db) := by
  simp only [Repo.list, executeSelect, runSelect, wrap_ok]
  have h1 : _filter_select_by_kwargs (_apply_filters [] true baseSelect) [] =
      baseSelect := rfl
  rw [h1, applyPage_base, filter_base_select]

theorem list_empty_collection_filter (st : RState) :
    Repo.list [FilterTypes.collectionFilter ⟨"id", []⟩] [] st =
      (.ok (st.flush).db, ((st.flush).attachAll (st.flush).db).expungeAll (st.flush).db) := by
  simp only [Repo.list, executeSelect, runSelect, wrap_ok]
  have h1 : _filter_select_by_kwargs
      (_apply_filters [FilterTypes.collectionFilter ⟨"id", []⟩] true baseSelect) [] =
      baseSelect := rfl
  rw [h1, applyPage_base, filter_base_select]

/-- C10: on a dialect without bulk-mutation-with-returning, `delete_many`
with an empty identifier list returns every entity currently in the
collection (the re-select step's `CollectionFilter` over the empty set
matches everything, while the bulk `DELETE .. WHERE id IN ()` removes
nothing), and `add_many` with an empty input list likewise returns the whole
collection instead of the empty list. -/
theorem delete_many_add_many_empty_input_return_whole_collection :
    ∀ (st : RState),
      (Repo.delete_many ⟨false, false, false⟩ [] st).1 = .ok (st.flush).db ∧
      (Repo.add_many ⟨false, false, false⟩ [] st).1 = .ok (st.flush).db ∧
      ((Repo.delete_many ⟨false, false, false⟩ [] st).2).db = (st.flush).db := by
  intro st
  have hd : (⟨false, false, false⟩ : Dialect).delete_executemany_returning = false := rfl
  have hi : (⟨false, false, false⟩ : Dialect).insert_executemany_returning = false := rfl
  have hmap : ([] : List Int).map Val.int = [] := rfl
  refine ⟨?_, ?_, ?_⟩
  · simp only [Repo.delete_many, hd, Bool.false_eq_true, if_false, hmap,
      list_empty_collection_filter, wrap_ok]
  · simp only [Repo.add_many, hi, Bool.false_eq_true, if_false, List.map_nil, hmap,
      List.append_nil]
    rw [show ({ (st.flush) with db := (st.flush).db } : RState) = st.flush from rfl]
    rw [list_empty_collection_filter]
    simp [RState.flush]
  · simp only [Repo.delete_many, hd, Bool.false_eq_true, if_false, hmap,
      list_empty_collection_filter, wrap_ok]
    simp [RState.flush, inIds, expungeAll_db, attachAll_db, expungeAll_pending,
      attachAll_pending]

/-- C8: on a collection holding exactly the entities A, B, C (distinct
identifiers), `delete_many [A.id, C.id]` returns exactly the pre-deletion
snapshots of A and C — on a bulk-returning dialect in one round trip, and
otherwise by pre-fetching them via `list` before issuing the bulk delete —
and a subsequent `list()` returns only B. -/
theorem delete_many_returns_predeletion_snapshots :
    ∀ (d : Dialect) (ea eb ec : Entity) (fr : Int),
      ea.id ≠ eb.id → ea.id ≠ ec.id → eb.id ≠ ec.id →
      Repo.delete_many d [ea.id, ec.id] ⟨[ea, eb, ec], [], [], fr⟩ =
        (.ok [ea, ec], ⟨[eb], [], [], fr⟩) ∧
      (Repo.list [] [] (⟨[eb], [], [], fr⟩ : RState)).1 = .ok [eb] := by
  intro d ea eb ec fr hab hac hbc
  have hcb : ec.id ≠ eb.id := Ne.symm hbc
  have hca : ec.id ≠ ea.id := Ne.symm hac
  have hba : eb.id ≠ ea.id := Ne.symm hab
  constructor
  · rcases d with ⟨di, du, dd⟩
    cases dd <;>
      simp [Repo.delete_many, Repo.list, executeSelect, runSelect, applyPage,
        RState.flush, RState.attachAll, RState.attach1, RState.expungeAll,
        RState.expunge, inIds, stmtHolds, WherePred.holds, Entity.getattr,
        _apply_filters, _apply_one_filter, _filter_in_collection,
        _filter_select_by_kwargs, SelectStmt.addWhere, baseSelect,
        wrap_sqlalchemy_exception, hab, hac, hbc, hcb, hca, hba,
        List.filter_cons, List.lookup]
  · rw [list_no_filters]
    rfl

/-- C8 witness: identifiers {1, 2, 3} on a dialect without bulk returning —
`delete_many [1, 3]` yields the snapshots of 1 and 3 and leaves only 2. -/
theorem delete_many_returns_predeletion_snapshots_witness :
    Repo.delete_many ⟨false, false, false⟩ [1, 3]
        ⟨[⟨1, []⟩, ⟨2, []⟩, ⟨3, []⟩], [], [], 0⟩ =
      (.ok [⟨1, []⟩, ⟨3, []⟩], ⟨[⟨2, []⟩], [], [], 0⟩) ∧
    (Repo.list [] [] (⟨[⟨2, []⟩], [], [], 0⟩ : RState)).1 = .ok [⟨2, []⟩] :=
  delete_many_returns_predeletion_snapshots ⟨false, false, false⟩
    ⟨1, []⟩ ⟨2, []⟩ ⟨3, []⟩ 0 (by decide) (by decide) (by decide)

theorem applyPage_nil (limit : Option Nat) (offset : Nat) :
    applyPage limit offset [] = [] := by
  cases limit <;> simp [applyPage]

theorem lookup_ne_of_lookup_none (l : List (String × Val)) (k : String) (v : Val)
    (h : l.lookup "id" = none) (hm : (k, v) ∈ l) : k ≠ "id" := by
  intro hk
  subst hk
  induction l with
  | nil => cases hm
  | cons p t ih =>
    rcases p with ⟨pk, pv⟩
    rcases List.mem_cons.mp hm with heq | hm2
    · have hpk : pk = "id" := (congrArg Prod.fst heq).symm
      subst hpk
      simp [List.lookup] at h
    · simp only [List.lookup] at h
      cases hpk : ("id" == pk)
      · rw [hpk] at h
        exact ih (by simpa using h) hm2
      · rw [hpk] at h
        simp at h

theorem lookup_of_mem_nodup (l : List (String × Val)) (k : String) (v : Val)
    (hnd : (l.map Prod.fst).Nodup) (hm : (k, v) ∈ l) : l.lookup k = some v := by
  induction l with
  | nil => cases hm
  | cons p t ih =>
    rcases p with ⟨pk, pv⟩
    rcases List.mem_cons.mp hm with heq | hm2
    · rw [show k = pk from congrArg Prod.fst heq,
        show v = pv from congrArg Prod.snd heq]
      simp [List.lookup]
    · have hk : (k == pk) = false := by
        rw [beq_eq_false_iff_ne]
        intro hkk
        subst hkk
        have hmem : k ∈ t.map Prod.fst := List.mem_map.mpr ⟨(k, v), hm2, rfl⟩
        exact (List.nodup_cons.mp hnd).1 hmem
      simp only [List.lookup, hk]
      exact ih (List.nodup_cons.mp hnd).2 hm2

theorem filter_ne_id_lookup (l : List (String × Val)) (k : String) (hk : k ≠ "id") :
    (l.filter (fun kv => kv.1 ≠ "id")).lookup k = l.lookup k := by
  induction l with
  | nil => rfl
  | cons p t ih =>
    rcases p with ⟨pk, pv⟩
    by_cases hp : pk = "id"
    · subst hp
      have hkp : (k == "id") = false := beq_eq_false_iff_ne.mpr hk
      rw [List.filter_cons,
        show (decide ((("id", pv) : String × Val).1 ≠ "id")) = false by simp]
      simp only [Bool.false_eq_true, if_false, List.lookup, hkp, ih]
    · rw [List.filter_cons,
        show (decide (((pk, pv) : String × Val).1 ≠ "id")) = true by simp [hp]]
      simp only [if_true, List.lookup]
      cases hkp : (k == pk)
      · simp only [hkp]
        simpa using ih
      · simp [hkp]

theorem model_type_new_id (g : Int) (kwargs : List (String × Val))
    (hid : kwargs.lookup "id" = none) : (model_type_new g kwargs).id = g := by
  simp [model_type_new, hid]

theorem model_type_new_getattr (kwargs : List (String × Val)) (g : Int)
    (k : String) (v : Val) (hnd : (kwargs.map Prod.fst).Nodup)
    (hid : kwargs.lookup "id" = none) (hm : (k, v) ∈ kwargs) :
    (model_type_new g kwargs).getattr k = some v := by
  have hk : k ≠ "id" := lookup_ne_of_lookup_none kwargs k v hid hm
  simp only [model_type_new, hid]
  simp only [Entity.getattr]
  rw [if_neg hk, filter_ne_id_lookup kwargs k hk,
    lookup_of_mem_nodup kwargs k v hnd hm]

theorem created_matches_kwargs (kwargs : List (String × Val)) (g : Int)
    (hnd : (kwargs.map Prod.fst).Nodup) (hid : kwargs.lookup "id" = none) :
    stmtHolds (_filter_select_by_kwargs baseSelect kwargs)
      (model_type_new g kwargs) = true := by
  simp only [stmtHolds, kwargs_wheres]
  rw [List.all_eq_true]
  intro p hp
  rw [show baseSelect.wheres = [] from rfl, List.nil_append] at hp
  obtain ⟨⟨k, v⟩, hm, rfl⟩ := List.mem_map.mp hp
  simp [WherePred.holds, model_type_new_getattr kwargs g k v hnd hid hm]

theorem find?_append_of_none {α : Type} (p : α → Bool) (l₁ l₂ : List α)
    (h : l₁.find? p = none) : (l₁ ++ l₂).find? p = l₂.find? p := by
  induction l₁ with
  | nil => rfl
  | cons a t ih =>
    cases hpa : p a
    · rw [List.cons_append]
      rw [List.find?_cons_of_neg _ (by simp [hpa])] at h ⊢
      exact ih h
    · rw [List.find?_cons_of_pos _ hpa] at h
      cases h

theorem get_one_or_none_of_no_match (kwargs : List (String × Val)) (st : RState)
    (h : (st.flush).db.filter
      (stmtHolds (_filter_select_by_kwargs baseSelect kwargs)) = []) :
    Repo.get_one_or_none kwargs st = (.ok none, st.flush) := by
  have hpage : ∀ l : List Entity,
      applyPage (_filter_select_by_kwargs baseSelect kwargs).limit
        (_filter_select_by_kwargs baseSelect kwargs).offset l = l := by
    intro l
    rw [(kwargs_preserves_page kwargs baseSelect).1,
      (kwargs_preserves_page kwargs baseSelect).2]
    exact applyPage_base l
  simp only [Repo.get_one_or_none, executeSelect, runSelect, hpage, h,
    scalar_one_or_none, wrap_ok]
  rfl

theorem get_one_or_none_of_single_match (kwargs : List (String × Val)) (st : RState)
    (e : Entity)
    (h : (st.flush).db.filter
      (stmtHolds (_filter_select_by_kwargs baseSelect kwargs)) = [e]) :
    Repo.get_one_or_none kwargs st =
      (.ok (some e), (((st.flush).attachAll [e]).expunge e)) := by
  have hpage : ∀ l : List Entity,
      applyPage (_filter_select_by_kwargs baseSelect kwargs).limit
        (_filter_select_by_kwargs baseSelect kwargs).offset l = l := by
    intro l
    rw [(kwargs_preserves_page kwargs baseSelect).1,
      (kwargs_preserves_page kwargs baseSelect).2]
    exact applyPage_base l
  simp only [Repo.get_one_or_none, executeSelect, runSelect, hpage, h,
    scalar_one_or_none, wrap_ok]

/-- C7: with equality constraints matching zero existing rows (and well-formed
Python kwargs: distinct keys, no `id` constraint, and a generated key fresh
for the table), `get_or_create` creates and returns the new entity built from
the constraints together with `wasCreated = true`; an immediately following
`get_or_create` on the resulting unit-of-work with the same constraints
returns that same entity with `wasCreated = false`. -/
theorem get_or_create_creates_then_returns_same_entity :
    ∀ (kwargs : List (String × Val)) (db : List Entity) (fr : Int),
      (kwargs.map Prod.fst).Nodup →
      kwargs.lookup "id" = none →
      (∀ r ∈ db, r.id ≠ fr) →
      (∀ r ∈ db, stmtHolds (_filter_select_by_kwargs baseSelect kwargs) r = false) →
      Repo.get_or_create kwargs ⟨db, [], [], fr⟩ =
        (.ok (model_type_new fr kwargs, true),
          ⟨db ++ [model_type_new fr kwargs], [], [], fr + 1⟩) ∧
      Repo.get_or_create kwargs ⟨db ++ [model_type_new fr kwargs], [], [], fr + 1⟩ =
        (.ok (model_type_new fr kwargs, false),
          ⟨db ++ [model_type_new fr kwargs], [], [], fr + 1⟩) := by
  intro kwargs db fr hnd hid hfresh hzero
  have hfilter0 :
      db.filter (stmtHolds (_filter_select_by_kwargs baseSelect kwargs)) = [] := by
    rw [List.filter_eq_nil_iff]
    intro r hr
    simp [hzero r hr]
  have hcnone : Repo.get_one_or_none kwargs (⟨db, [], [], fr⟩ : RState) =
      (.ok none, ⟨db, [], [], fr⟩) :=
    get_one_or_none_of_no_match kwargs ⟨db, [], [], fr⟩ hfilter0
  have hcreatedid : (model_type_new fr kwargs).id = fr := model_type_new_id fr kwargs hid
  have hfindnone : db.find? (fun r => r.id = (model_type_new fr kwargs).id) = none := by
    rw [List.find?_eq_none]
    intro r hr
    simp [hcreatedid, hfresh r hr]
  have hfind : (db ++ [model_type_new fr kwargs]).find?
      (fun r => r.id = (model_type_new fr kwargs).id) =
      some (model_type_new fr kwargs) := by
    rw [find?_append_of_none _ _ _ hfindnone]
    simp [List.find?]
  have hadd : Repo.add (model_type_new fr kwargs) (⟨db, [], [], fr + 1⟩ : RState) =
      (.ok (model_type_new fr kwargs),
        ⟨db ++ [model_type_new fr kwargs], [], [], fr + 1⟩) := by
    simp [Repo.add, session_add, RState.attach1, RState.flush, RState.refreshed,
      RState.expunge, applyPending, hfind, wrap_ok]
  constructor
  · simp only [Repo.get_or_create, hcnone]
    simp only [hadd]
  · have hmatch := created_matches_kwargs kwargs fr hnd hid
    have hfilter1 : (db ++ [model_type_new fr kwargs]).filter
        (stmtHolds (_filter_select_by_kwargs baseSelect kwargs)) =
        [model_type_new fr kwargs] := by
      rw [List.filter_append, hfilter0]
      simp [List.filter, hmatch]
    have hsingle := get_one_or_none_of_single_match kwargs
      ⟨db ++ [model_type_new fr kwargs], [], [], fr + 1⟩
      (model_type_new fr kwargs) hfilter1
    have hstate :
        ((((⟨db ++ [model_type_new fr kwargs], [], [], fr + 1⟩ : RState).flush).attachAll
            [model_type_new fr kwargs]).expunge (model_type_new fr kwargs)) =
        (⟨db ++ [model_type_new fr kwargs], [], [], fr + 1⟩ : RState) := by
      simp [RState.flush, RState.attachAll, RState.attach1, RState.expunge]
    rw [hstate] at hsingle
    simp only [Repo.get_or_create, hsingle]

/-- C7 witness: `get_or_create(name="x")` on an empty collection creates and
returns the new entity with `true`; the immediate repeat returns the same
entity with `false`. -/
theorem get_or_create_creates_then_returns_same_entity_witness :
    Repo.get_or_create [("name", Val.str "x")] ⟨[], [], [], 0⟩ =
      (.ok (model_type_new 0 [("name", Val.str "x")], true),
        ⟨[] ++ [model_type_new 0 [("name", Val.str "x")]], [], [], 0 + 1⟩) ∧
    Repo.get_or_create [("name", Val.str "x")]
        ⟨[] ++ [model_type_new 0 [("name", Val.str "x")]], [], [], 0 + 1⟩ =
      (.ok (model_type_new 0 [("name", Val.str "x")], false),
        ⟨[] ++ [model_type_new 0 [("name", Val.str "x")]], [], [], 0 + 1⟩) :=
  get_or_create_creates_then_returns_same_entity [("name", Val.str "x")] [] 0
    (by simp) (by decide) (by simp) (by simp)

/-- C9 counterexample: `slugify "Hello World"` is `"hello-world"`, but with
TWO entities already carrying that slug, `get_available_slug` does not
return a suffixed slug at all: the `get_one_or_none` lookup raises
`MultipleResultsFound`, which the boundary re-raises as the generic storage
error — refuting the claim's unconditional "otherwise returns slug-XXXX". -/
theorem get_available_slug_errors_on_duplicate_slugs :
    slugify "Hello World" = "hello-world" ∧
    (get_available_slug "ab12" "Hello World"
        ⟨[⟨1, [("slug", Val.str "hello-world")]⟩,
          ⟨2, [("slug", Val.str "hello-world")]⟩], [], [], 0⟩).1 =
      .error (.starliteSaqlalchemyError
        ("An exception occurred: " ++
          "Multiple rows were found when one or none was required")) ∧
    (get_available_slug "ab12" "Hello World"
        ⟨[⟨1, [("slug", Val.str "hello-world")]⟩,
          ⟨2, [("slug", Val.str "hello-world")]⟩], [], [], 0⟩).1 ≠
      .ok "hello-world-ab12" := by
  refine ⟨rfl, rfl, ?_⟩
  rw [show (get_available_slug "ab12" "Hello World"
      ⟨[⟨1, [("slug", Val.str "hello-world")]⟩,
        ⟨2, [("slug", Val.str "hello-world")]⟩], [], [], 0⟩).1 =
    .error (.starliteSaqlalchemyError
      ("An exception occurred: " ++
        "Multiple rows were found when one or none was required")) from rfl]
  simp

/-- C9 (amended): `get_available_slug` normalizes the source text with
`slugify`; when no entity carries the slug (the lookup matches zero rows) the
slug itself is returned; when exactly one entity carries it, the returned
value is the slug, a hyphen and the 4 sampled lowercase-alphanumeric
characters, with no re-check of the suffixed value (no hypothesis about the
suffixed slug is needed); when several entities carry the slug the lookup
itself fails (see the counterexample). -/
theorem get_available_slug_semantics :
    ∀ (rand v : String) (st : RState) (e : Entity),
      (∀ c ∈ rand.toList, c.isLower = true ∨ c.isDigit = true) →
      rand.length = 4 →
      ((st.flush).db.filter
          (stmtHolds (_filter_select_by_kwargs baseSelect
            [("slug", Val.str (slugify v))])) = [] →
        get_available_slug rand v st = (.ok (slugify v), st.flush)) ∧
      ((st.flush).db.filter
          (stmtHolds (_filter_select_by_kwargs baseSelect
            [("slug", Val.str (slugify v))])) = [e] →
        (get_available_slug rand v st).1 = .ok (slugify v ++ "-" ++ rand)) := by
  intro rand v st e _ _
  constructor
  · intro h
    have hnone := get_one_or_none_of_no_match [("slug", Val.str (slugify v))] st h
    simp only [get_available_slug, _is_slug_unique, hnone, Option.isNone]
  · intro h
    have hone := get_one_or_none_of_single_match [("slug", Val.str (slugify v))] st e h
    simp only [get_available_slug, _is_slug_unique, hone, Option.isNone]

/-- C9 witness: `get_available_slug("Hello World")` with sample `"ab12"` on
an empty collection — the lookup matches nothing and the bare slug comes
back; with exactly one match the suffixed slug comes back. -/
theorem get_available_slug_semantics_witness :
    (((⟨[], [], [], 0⟩ : RState).flush).db.filter
        (stmtHolds (_filter_select_by_kwargs baseSelect
          [("slug", Val.str (slugify "Hello World"))])) = [] →
      get_available_slug "ab12" "Hello World" ⟨[], [], [], 0⟩ =
        (.ok (slugify "Hello World"), (⟨[], [], [], 0⟩ : RState).flush)) ∧
    (((⟨[], [], [], 0⟩ : RState).flush).db.filter
        (stmtHolds (_filter_select_by_kwargs baseSelect
          [("slug", Val.str (slugify "Hello World"))])) = [⟨0, []⟩] →
      (get_available_slug "ab12" "Hello World" ⟨[], [], [], 0⟩).1 =
        .ok (slugify "Hello World" ++ "-" ++ "ab12")) :=
  get_available_slug_semantics "ab12" "Hello World" ⟨[], [], [], 0⟩ ⟨0, []⟩
    (by decide) (by decide)

/-- C3 witness: one entity, `Page(limit=2, offset=0)` — one row comes back,
so at most 2 entities are returned and the total equals `count((), E)`. -/
theorem list_and_count_page_semantics_witness :
    ([⟨1, []⟩] : List Entity).length ≤ 2 ∧
    (([⟨1, []⟩] : List Entity) ≠ [] →
      1 = (Repo.count [] [] ⟨[⟨1, []⟩], [], [], 0⟩).1) ∧
    (([⟨1, []⟩] : List Entity) = [] → 1 = 0) :=
  list_and_count_page_semantics 2 0 [] ⟨[⟨1, []⟩], [], [], 0⟩ [⟨1, []⟩] 1
    (Repo.list_and_count [FilterTypes.limitOffset ⟨2, 0⟩] []
      ⟨[⟨1, []⟩], [], [], 0⟩).2 rfl
